import Mathlib

/-!
Verification of the scheduled-publish pipeline of the Linkedin-Post-Bot
repository: a shallow embedding of the credential store
(`services/token_store.py`), the encryption layer (`services/encryption.py`),
the token refresh protocol (`services/auth_service.py`), the due-work scanner
(`services/scheduler.py`) and the task dispatcher (`services/tasks.py`),
together with theorems settling the specification claims about them.

Python strings are modelled as Lean `String` (a sequence of characters);
the Python operations `str.startswith` and slicing `s[n:]` are modelled
over the character sequence `String.data`.  Python truthiness of optional
strings and optional integers (`if not x`) is modelled explicitly, since
both `None`, the empty string and the integer `0` are falsy.
-/

/-- Python `s.startswith(pre)`: prefix test on the character sequence. -/
def py_startswith (s pre : String) : Bool :=
  pre.data.isPrefixOf s.data

/-- Python slicing `s[n:]`: drop the first `n` characters. -/
def py_drop (s : String) (n : Nat) : String :=
  String.mk (s.data.drop n)

/-- Python truthiness of an optional string (`if not x`): `None` and the
empty string are falsy. -/
def truthy_str : Option String → Bool
  | none => false
  | some s => s ≠ ""

/-! ## Encryption layer (`services/encryption.py`)

The Fernet cipher itself is an external library (`cryptography.fernet`);
it is modelled as an abstract pair of functions.  Decryption is partial:
`Fernet.decrypt` raises on a forged or corrupted token, modelled by
`Option`. -/

/-- Abstract model of a constructed `cryptography.fernet.Fernet` instance:
`enc` models `fernet.encrypt(..).decode()`, `dec` models
`fernet.decrypt(..).decode()` with `none` for a raised exception. -/
structure Fernet where
  enc : String → String
  dec : String → Option String

/-- The `EncryptionKeyMissingError` exception of `services/encryption.py`. -/
inductive EncError where
  | key_missing (message : String)
deriving DecidableEq

/-- State of the encryption module at the time of a call:
`is_production` models `ENV == 'production'`, `encryption_key` the
`ENCRYPTION_KEY` environment variable (empty when unset), `fernet` the
outcome of the external constructor `Fernet(ENCRYPTION_KEY.encode())`
(`none` when the constructor raised, i.e. the configured key is
invalid), and `initialization_checked` the module-global one-shot flag
`_initialization_checked`, which `_check_encryption_requirements` sets
to `True` *before* raising, so that the no-key production error is
raised by the first call only. -/
structure EncEnv where
  is_production : Bool
  encryption_key : String
  fernet : Option Fernet
  initialization_checked : Bool

/-- State transition of the one-shot flag: every call that reaches
`_get_fernet` (any `encrypt_value`/`decrypt_value` call that gets past
the empty-input and legacy-plaintext early returns) leaves
`_initialization_checked` set. -/
def after_encryption_check (env : EncEnv) : EncEnv :=
  { env with initialization_checked := true }

/-- Model of `_get_fernet` (with `_check_encryption_requirements`
inlined, as it is called there first).  With no key configured: if the
one-shot flag is already set the check returns at once and the function
yields `None`; otherwise the first call raises in production (setting
the flag first) and yields `None` in development.  With a key it yields
the constructed instance, raising in production when construction
failed (this raise sits in `_get_fernet` itself and is not guarded by
the flag). -/
def get_fernet (env : EncEnv) : Except EncError (Option Fernet) :=
  if env.encryption_key = "" then
    if env.initialization_checked then
      Except.ok none
    else if env.is_production then
      Except.error (EncError.key_missing "FATAL: ENCRYPTION_KEY environment variable is not set")
    else
      Except.ok none
  else
    match env.fernet with
    | some f => Except.ok (some f)
    | none =>
        if env.is_production then
          Except.error (EncError.key_missing "Invalid ENCRYPTION_KEY")
        else
          Except.ok none

/-- Model of `encrypt_value`: empty input returns the empty string before
any key check; without a Fernet instance (development only) the plaintext
passes through; otherwise the ciphertext is returned tagged with the
`ENC:` prefix. -/
def encrypt_value (env : EncEnv) (plaintext : String) : Except EncError String :=
  if plaintext = "" then
    Except.ok ""
  else
    match get_fernet env with
    | Except.error e => Except.error e
    | Except.ok none => Except.ok plaintext
    | Except.ok (some f) => Except.ok ("ENC:" ++ f.enc plaintext)

/-- Model of `decrypt_value`: empty input returns the empty string; a
value without the `ENC:` tag (legacy plaintext) is returned unchanged
before any key is required; a tagged value is stripped of the four-character
prefix and decrypted, raising in production and yielding the empty string
in development when no instance is available or decryption fails. -/
def decrypt_value (env : EncEnv) (encrypted : String) : Except EncError String :=
  if encrypted = "" then
    Except.ok ""
  else if !(py_startswith encrypted "ENC:") then
    Except.ok encrypted
  else
    match get_fernet env with
    | Except.error e => Except.error e
    | Except.ok none =>
        if env.is_production then
          Except.error (EncError.key_missing "Cannot decrypt: ENCRYPTION_KEY not set in production")
        else
          Except.ok ""
    | Except.ok (some f) =>
        match f.dec (py_drop encrypted 4) with
        | some s => Except.ok s
        | none =>
            if env.is_production then
              Except.error (EncError.key_missing "Decryption failed in production")
            else
              Except.ok ""

/-- Model of `is_encrypted`: a value is encrypted iff it is non-empty and
carries the `ENC:` tag. -/
def is_encrypted (value : String) : Bool :=
  value ≠ "" && py_startswith value "ENC:"

/-! ## Credential store (`services/token_store.py`)

The `accounts` table of the SQLite database, one row per stored
credential, in insertion order. -/

/-- A row of the `accounts` table as created by `init_db` and written by
`save_token` (the integer `id` primary key is left implicit: it never
participates in any query of the module). -/
structure AccountRow where
  linkedin_user_urn : String
  access_token : String
  refresh_token : Option String
  expires_at : Option Int
  user_id : Option String
deriving DecidableEq

/-- Model of `save_token`: the single-statement UPSERT
`INSERT .. ON CONFLICT(linkedin_user_urn) DO UPDATE SET ..`.  When a row
with the given URN exists, all four remaining columns are overwritten in
place (including `user_id`, set to the `excluded` value); otherwise a new
row is appended.  Note that the values are stored exactly as passed in:
`save_token` performs no call into `services/encryption.py`. -/
def save_token (linkedin_user_urn access_token : String) (refresh_token : Option String)
    (expires_at : Option Int) (user_id : Option String)
    (db : List AccountRow) : List AccountRow :=
  if db.any (fun r => r.linkedin_user_urn = linkedin_user_urn) then
    db.map (fun r =>
      if r.linkedin_user_urn = linkedin_user_urn then
        { r with
          access_token := access_token
          refresh_token := refresh_token
          expires_at := expires_at
          user_id := user_id }
      else r)
  else
    db ++ [⟨linkedin_user_urn, access_token, refresh_token, expires_at, user_id⟩]

/-- Model of `get_token_by_urn`: `SELECT .. WHERE linkedin_user_urn=?`
with `fetchone`, i.e. the first matching row. -/
def get_token_by_urn (db : List AccountRow) (linkedin_user_urn : String) : Option AccountRow :=
  db.find? (fun r => r.linkedin_user_urn = linkedin_user_urn)

/-- Model of `get_token_by_user_id`: `SELECT .. WHERE user_id=?` with
`fetchone`, i.e. the first matching row. -/
def get_token_by_user_id (db : List AccountRow) (user_id : String) : Option AccountRow :=
  db.find? (fun r => r.user_id = some user_id)

/-! ## Token refresh protocol (`services/auth_service.py`) -/

/-- The exceptions observable from `get_access_token_for_urn`: one
constructor per `services/auth_service.py` exception class
(`TokenNotFoundError`, `TokenRefreshError`, `AuthConfigurationError`,
`AuthProviderError`), each carrying its message, plus `py_type_error`
for the Python built-in `TypeError` that `await` raises on a
non-awaitable value (the messages of the latter are paraphrased without
the quote characters of the CPython originals). -/
inductive AuthError where
  | token_not_found (message : String)
  | token_refresh (message : String)
  | auth_configuration (message : String)
  | auth_provider (message : String)
  | py_type_error (message : String)
deriving DecidableEq

/-- The `RefreshTokenResponse` dataclass returned by
`refresh_access_token`. -/
structure RefreshTokenResponse where
  access_token : String
  refresh_token : Option String
  expires_at : Option Int
deriving DecidableEq

/-- Outcome of one call to `get_access_token_for_urn`: the returned token
or raised exception, the resulting `accounts` table, and whether the
refresh endpoint (`refresh_access_token`) was invoked. -/
structure AuthResult where
  result : Except AuthError String
  db : List AccountRow
  refresh_called : Bool

/-- Model of `get_access_token_for_urn`.  The function is declared
`async`, but its first statement is
`token_row = await get_token_by_urn(linkedin_user_urn)`
(auth_service.py line 710) — and `token_store.get_token_by_urn` is a
plain synchronous function.  The lookup itself executes (a read-only
query), and the `await` on its `dict`-or-`None` result then raises
`TypeError` on every call.  Everything after line 710 — the
expiry-buffer check, `TokenNotFoundError`, `TokenRefreshError`, the
`refresh_access_token` call and the `save_token` write-back at line
745 — is unreachable: no call returns a token, invokes the refresh
endpoint, or modifies the store.  The `refresh` oracle (the external
`refresh_access_token` round-trip) is therefore never consulted. -/
def get_access_token_for_urn
    (_refresh : String → Except AuthError RefreshTokenResponse)
    (db : List AccountRow) (linkedin_user_urn : String)
    (_refresh_buffer : Int) (_now : Int) : AuthResult :=
  match get_token_by_urn db linkedin_user_urn with
  | none =>
      ⟨Except.error (AuthError.py_type_error
          "object NoneType can not be used in await expression"), db, false⟩
  | some _ =>
      ⟨Except.error (AuthError.py_type_error
          "object dict can not be used in await expression"), db, false⟩

/-! ## Schedule store (`services/scheduled_posts.py`)

The module `services/scheduled_posts.py` is absent from the source tree —
only its callers (`services/scheduler.py`, `services/tasks.py`) and its
table definition (`backend/database/schema.py`, table `scheduled_posts`)
are present — so its two functions are modelled from the spec. -/

/-- The `status` column of a `scheduled_posts` row (spec §3: enum
`pending`, `published`, `failed`). -/
inductive Status where
  | pending
  | published
  | failed
deriving DecidableEq

/-- A row of the `scheduled_posts` table
(`backend/database/schema.py`). -/
structure Post where
  id : Nat
  user_id : String
  post_content : String
  image_url : Option String
  scheduled_time : Int
  status : Status
  error_message : Option String
  created_at : Int
  published_at : Option Int
deriving DecidableEq

/-- Modelled from the spec: `get_due_posts` of the missing
`services/scheduled_posts.py` — "query the Schedule Store for all rows
with status `pending` and target time ≤ now" (§4.1). -/
def get_due_posts (now : Int) (db : List Post) : List Post :=
  db.filter (fun p => decide (p.status = Status.pending) && decide (p.scheduled_time ≤ now))

/-- Modelled from the spec: `update_post_status` of the missing
`services/scheduled_posts.py` — the Status State Machine write-back: set
the status and failure detail of the row with the given id, recording
`published_at` on success ("on success, ScheduledPost transitions to
`published` ..; on failure, transitions to `failed` with a short
human-readable reason", §4.2). -/
def update_post_status (post_id : Nat) (st : Status) (error_message : Option String)
    (now : Int) (db : List Post) : List Post :=
  db.map (fun p =>
    if p.id = post_id then
      { p with
        status := st
        error_message := error_message
        published_at := if st = Status.published then some now else p.published_at }
    else p)

/-! ## Due-work scanner (`services/scheduler.py`)

`process_due_posts` guards two lazy imports with `try/except ImportError`
(`publish_to_linkedin` from `services/linkedin_service.py` and
`get_linkedin_tokens` from `services/token_store.py`; neither name is
defined in the source tree, so in the shipped code both guards fire) and
wraps the due-posts query in `try/except`.  Each of these runtime-dependent
outcomes is a field of the environment below.  The two imported callees are
likewise absent from the source tree and are modelled from the spec as
oracles. -/

/-- The dictionary returned by the vault lookup of the scanner
(`tokens.get('access_token')` is the only key read). -/
structure TokenDict where
  access_token : Option String
deriving DecidableEq

/-- The dictionary returned by the scanner's publish call
(`result.get('success')` and `result.get('error', 'Unknown error')` are
the only keys read). -/
structure PublishResult where
  success : Bool
  error : Option String
deriving DecidableEq

/-- Runtime environment of one scan cycle of `process_due_posts`
(`services/scheduler.py`). `publish_import_ok` / `vault_import_ok` model
the two guarded imports; `due_exc` is `some msg` when the
`get_due_posts()` call raises; `get_tokens` is modelled from the spec:
`get_linkedin_tokens` of the vault (§4.3 `get(tenant_id) ->
Credential | NotFound`), as an oracle because every outcome is handled
per-post; `publish` is modelled from the spec: the Publish Adapter
(§6 `publish(..) -> {provider_post_id} | Error`), also as an oracle.
`Except.error` models a raised exception in either callee. -/
structure SchedEnv where
  publish_import_ok : Bool
  vault_import_ok : Bool
  due_exc : Option String
  get_tokens : String → Except String (Option TokenDict)
  publish : String → String → Option String → Except String PublishResult

/-- One iteration of the scanner's per-post loop (`services/scheduler.py`
lines 52–90): a missing or empty token marks the post failed immediately;
a publish outcome marks it published or failed; any raised exception is
caught and marks it failed with `str(e)`. -/
def process_post (env : SchedEnv) (now : Int) (db : List Post) (p : Post) : List Post :=
  match env.get_tokens p.user_id with
  | Except.error e => update_post_status p.id Status.failed (some e) now db
  | Except.ok none =>
      update_post_status p.id Status.failed (some "LinkedIn not connected or token expired") now db
  | Except.ok (some tokens) =>
      if !truthy_str tokens.access_token then
        update_post_status p.id Status.failed (some "LinkedIn not connected or token expired") now db
      else
        match env.publish (tokens.access_token.getD "") p.post_content p.image_url with
        | Except.error e => update_post_status p.id Status.failed (some e) now db
        | Except.ok result =>
            if result.success then
              update_post_status p.id Status.published none now db
            else
              update_post_status p.id Status.failed (some (result.error.getD "Unknown error")) now db

/-- The scanner's `for post in due_posts` loop, threading the store state
and the `processed` counter. -/
def process_posts_loop (env : SchedEnv) (now : Int) :
    List Post → Nat → List Post → Nat × List Post
  | [], processed, db => (processed, db)
  | p :: rest, processed, db =>
      process_posts_loop env now rest (processed + 1) (process_post env now db p)

/-- Model of `process_due_posts`: a failed import, a raised due-posts
query or an empty due list each end the cycle with `0` and an untouched
store; otherwise every due post is processed in order. -/
def process_due_posts (env : SchedEnv) (now : Int) (db : List Post) : Nat × List Post :=
  if !env.publish_import_ok then (0, db)
  else if !env.vault_import_ok then (0, db)
  else
    match env.due_exc with
    | some _ => (0, db)
    | none =>
        let due := get_due_posts now db
        if due.isEmpty then (0, db)
        else process_posts_loop env now due 0 db

/-! ## Task dispatcher (`services/tasks.py`, `services/celery_app.py`)

`_process_due_posts_async` is the Celery-side twin of the scanner loop: it
resolves tokens through `get_token_by_user_id` (from
`services/token_store.py`, present in the source) and publishes through
`post_to_linkedin` (from `services/linkedin_service.py`, present in the
source).  `post_to_linkedin` prints the HTTP status and falls off the end
of the function: it returns Python `None` on every completed call, so the
caller's `result.get('success')` raises `AttributeError`, which the
per-post `except` clause turns into an immediate `failed` write. -/

/-- Retry configuration of the `publish_due_posts_task` decorator
(`services/tasks.py`): `max_retries=3`. It applies to the scan task as a
whole, not to individual publish attempts. -/
def task_max_retries : Nat := 3

/-- Retry configuration of the `publish_due_posts_task` decorator:
`default_retry_delay=60` seconds. -/
def task_default_retry_delay : Nat := 60

/-- Retry configuration of the `publish_due_posts_task` decorator:
`retry_backoff_max=300` seconds (cap of the exponential backoff of the
task-level autoretry). -/
def task_retry_backoff_max : Nat := 300

/-- Model of `post_to_linkedin` (`services/linkedin_service.py`):
`default_token` / `default_urn` are the module globals
`LINKEDIN_ACCESS_TOKEN` / `LINKEDIN_USER_URN` (empty when unset);
`http_result` is the outcome of the external `requests.post` call (the
HTTP status code, or a raised exception).  The function raises
`RuntimeError` when both the argument and the global are missing for the
token or the URN, propagates a network exception, and otherwise returns
`None` — it has no return statement on the normal path. -/
def post_to_linkedin (default_token default_urn : String)
    (http_result : Except String Nat) (_message_text : String)
    (access_token : String) : Except String (Option PublishResult) :=
  let token := if access_token = "" then default_token else access_token
  let owner := default_urn
  if token = "" ∨ owner = "" then
    Except.error "Missing access_token or linkedin_user_urn for posting"
  else
    match http_result with
    | Except.error e => Except.error e
    | Except.ok _ => Except.ok none

/-- Runtime environment of one run of `_process_due_posts_async`:
`due_exc` models a raised `get_due_posts()` call; `li_default_token` and
`li_default_urn` are the `services/linkedin_service.py` module globals
and `http` the outcome of the HTTP post for each post id — inputs of
`post_to_linkedin`, which the shipped loop body never reaches (see
`process_post_task`). -/
structure TasksEnv where
  due_exc : Option String
  li_default_token : String
  li_default_urn : String
  http : Nat → Except String Nat

/-- One iteration of the dispatcher's per-post loop
(`services/tasks.py` lines 116–154).  The loop body's first step,
`tokens = await funcs['get_token_by_user_id'](user_id)` (line 123),
awaits the synchronous `token_store.get_token_by_user_id`: the lookup
itself executes, and the `await` on its `dict`-or-`None` result raises
`TypeError` (messages paraphrased without the quote characters of the
CPython originals).  The per-post `except` (lines 151–153) catches it
and marks the post failed with `str(e)`.  The token-presence check, the
`post_to_linkedin` call and the result handling further down the loop
body are unreachable, so no publish call is ever made: the second
component of the result, the list of publish calls (post ids handed to
`post_to_linkedin`), is always empty. -/
def process_post_task (_env : TasksEnv) (now : Int) (accounts : List AccountRow)
    (db : List Post) (p : Post) : List Post × List Nat :=
  match get_token_by_user_id accounts p.user_id with
  | none =>
      (update_post_status p.id Status.failed
        (some "TypeError: object NoneType can not be used in await expression") now db, [])
  | some _ =>
      (update_post_status p.id Status.failed
        (some "TypeError: object dict can not be used in await expression") now db, [])

/-- The dispatcher's `for post in due_posts` loop, threading the store
state, the counter and the publish-call trace. -/
def tasks_loop (env : TasksEnv) (now : Int) (accounts : List AccountRow) :
    List Post → Nat → List Post → List Nat → Nat × List Post × List Nat
  | [], processed, db, trace => (processed, db, trace)
  | p :: rest, processed, db, trace =>
      let r := process_post_task env now accounts db p
      tasks_loop env now accounts rest (processed + 1) r.1 (trace ++ r.2)

/-- Model of `_process_due_posts_async`: a raised due-posts query or an
empty due list ends the run with `0`, an untouched store and no publish
calls; otherwise every due post is processed in order.  (The preceding
`connect_db()` call is outside the function's `try` blocks: its failure
raises out of the task, which is the only path that reaches the Celery
task-level autoretry.) -/
def process_due_posts_async (env : TasksEnv) (now : Int) (accounts : List AccountRow)
    (db : List Post) : Nat × List Post × List Nat :=
  match env.due_exc with
  | some _ => (0, db, [])
  | none =>
      let due := get_due_posts now db
      if due.isEmpty then (0, db, [])
      else tasks_loop env now accounts due 0 db []

/-! ## Concrete instances used by counterexamples and witnesses -/

/-- A concrete Fernet model whose ciphertext is the plaintext itself; it
satisfies the round-trip law and serves to instantiate theorems that are
parametric in the cipher. -/
def id_fernet : Fernet := ⟨fun s => s, fun s => some s⟩

/-- A production-mode encryption environment with a configured, valid
key (instantiated with `id_fernet`); the one-shot flag is still
unset. -/
def prod_env_with_key : EncEnv := ⟨true, "configured-key", some id_fernet, false⟩

/-- A production-mode encryption environment with no key configured, in
the state before the first encrypt/decrypt call (one-shot flag
unset). -/
def prod_env_no_key : EncEnv := ⟨true, "", none, false⟩

/-- A refresh oracle that always succeeds with a fixed response. -/
def ok_refresh : String → Except AuthError RefreshTokenResponse :=
  fun _ => Except.ok ⟨"refreshed-access", some "refreshed-refresh", some 999999⟩

/-- Credential row of tenant `user_abc` whose token expires at 1030:
30 seconds from the reference instant 1000, inside the default 60-second
refresh buffer. -/
def row_near_expiry : AccountRow :=
  ⟨"urn:li:person:X", "old-access", some "old-refresh", some 1030, some "user_abc"⟩

/-- Credential row whose token expires far beyond the refresh buffer. -/
def row_far_expiry : AccountRow :=
  ⟨"urn:li:person:F", "far-access", some "far-refresh", some 99999, some "user_f"⟩

/-- Credential row inside the refresh window (expiry 1030, reference
instant 1000) holding no refresh token. -/
def row_near_expiry_no_refresh : AccountRow :=
  ⟨"urn:li:person:Y", "y-access", none, some 1030, some "user_y"⟩

/-- A pending scheduled post due at the reference instant 1000. -/
def due_post : Post :=
  ⟨1, "u1", "hello world", none, 500, Status.pending, none, 100, none⟩

/-- A scheduled post already in the terminal `published` state. -/
def published_post : Post :=
  ⟨2, "u1", "older news", none, 300, Status.published, none, 100, some 400⟩

/-- Scanner environment whose vault lookup always yields a usable token
and whose publish oracle always succeeds. -/
def sched_env_ok : SchedEnv :=
  ⟨true, true, none, fun _ => Except.ok (some ⟨some "tok"⟩),
   fun _ _ _ => Except.ok ⟨true, none⟩⟩

/-- The legal per-row effect of one scan cycle on a `scheduled_posts`
row: the row is untouched, or it was `pending` and was rewritten (same
id) to one of the two terminal statuses.  This is exactly the edge set
`pending → published | failed` of the status state machine. -/
def scan_transition (r r2 : Post) : Prop :=
  r2 = r ∨
    (r.status = Status.pending ∧ r2.id = r.id ∧
      (r2.status = Status.published ∨ r2.status = Status.failed))

/-- Auxiliary per-row relation for the loop induction: the row is
untouched, or its id belongs to `S` (the ids of the selected due posts)
and it was rewritten (same id) to a terminal status. -/
def row_step (S : List Nat) (r r2 : Post) : Prop :=
  r2 = r ∨
    (r.id ∈ S ∧ r2.id = r.id ∧
      (r2.status = Status.published ∨ r2.status = Status.failed))

/-- Scanner environment whose due-posts query raises. -/
def sched_env_exc : SchedEnv :=
  ⟨true, true, some "database connection lost",
   fun _ => Except.ok none, fun _ _ _ => Except.ok ⟨true, none⟩⟩

/-- Accounts table holding a usable token for tenant `u1`. -/
def c7_accounts : List AccountRow :=
  [⟨"urn:li:person:X", "tok123", none, none, some "u1"⟩]

/-- Dispatcher environment whose HTTP post returns status 503 (a
provider-transient error) for every post. -/
def c7_env : TasksEnv :=
  ⟨none, "", "urn:li:person:X", fun _ => Except.ok 503⟩

/-! ## Helper lemmas on the string model -/

theorem enc_prepend_ne_empty (t : String) : "ENC:" ++ t ≠ "" := by
  intro h
  have h2 : ("ENC:" ++ t).data = ("" : String).data := congrArg String.data h
  rw [String.data_append] at h2
  exact absurd h2 (by simp)

theorem py_startswith_enc_prepend (t : String) :
    py_startswith ("ENC:" ++ t) "ENC:" = true := by
  unfold py_startswith
  rw [String.data_append]
  exact List.isPrefixOf_iff_prefix.mpr (List.prefix_append _ _)

theorem py_drop_enc_prepend (t : String) : py_drop ("ENC:" ++ t) 4 = t := by
  unfold py_drop
  rw [String.data_append]
  rfl

theorem py_startswith_ne_empty {y : String} (h : py_startswith y "ENC:" = true) :
    y ≠ "" := by
  intro hy
  rw [hy] at h
  exact absurd h (by decide)

theorem get_fernet_with_key {env : EncEnv} {f : Fernet}
    (hkey : env.encryption_key ≠ "") (hfern : env.fernet = some f) :
    get_fernet env = Except.ok (some f) := by
  unfold get_fernet
  rw [if_neg hkey, hfern]

/-! ## Claim C1 -/

/-- C1 (code bug): the credential store does not encrypt.  `save_token`
writes the access and refresh token values to the `accounts` table exactly
as passed in — the stored access token is the raw plaintext, carries no
`ENC:` tag, and differs from what `encrypt_value` would have produced in
a production environment with a configured key — contradicting the claim
that every persisted token value passes through the encryption layer. -/
theorem save_token_stores_plaintext_verbatim :
    get_token_by_urn
        (save_token "urn:li:person:A" "plain-access-token" (some "plain-refresh-token")
          (some 9999) (some "user-1") [])
        "urn:li:person:A" =
      some ⟨"urn:li:person:A", "plain-access-token", some "plain-refresh-token",
        (some 9999 : Option Int), some "user-1"⟩ ∧
    is_encrypted "plain-access-token" = false ∧
    encrypt_value prod_env_with_key "plain-access-token" =
      Except.ok ("ENC:" ++ "plain-access-token") := by
  refine ⟨rfl, rfl, rfl⟩

/-! ## Claim C4 -/

/-- C4: encryption round-trip.  With a configured, valid key (a Fernet
instance satisfying the cipher round-trip law), `decrypt_value` inverts
`encrypt_value` on every non-empty string; and every non-empty value
without the `ENC:` tag (legacy plaintext) is returned unchanged by
`decrypt_value` in every environment, configured key or not. -/
theorem encrypt_decrypt_roundtrip
    (f : Fernet) (hf : ∀ s, f.dec (f.enc s) = some s)
    (env : EncEnv) (hkey : env.encryption_key ≠ "") (hfern : env.fernet = some f)
    (x : String) (hx : x ≠ "") :
    encrypt_value env x = Except.ok ("ENC:" ++ f.enc x) ∧
    decrypt_value env ("ENC:" ++ f.enc x) = Except.ok x ∧
    (∀ (env2 : EncEnv) (y : String), y ≠ "" → py_startswith y "ENC:" = false →
      decrypt_value env2 y = Except.ok y) := by
  have hgf := get_fernet_with_key hkey hfern
  refine ⟨?_, ?_, ?_⟩
  · unfold encrypt_value
    rw [if_neg hx, hgf]
  · unfold decrypt_value
    rw [if_neg (enc_prepend_ne_empty (f.enc x)), py_startswith_enc_prepend (f.enc x)]
    simp only [Bool.not_true, Bool.false_eq_true, if_false]
    rw [hgf, py_drop_enc_prepend (f.enc x)]
    simp only [hf]
  · intro env2 y hy hpre
    unfold decrypt_value
    rw [if_neg hy, hpre]
    rfl

/-- Witness for C4 at the identity cipher and a concrete environment and
input. -/
theorem encrypt_decrypt_roundtrip_witness :
    (∀ s, id_fernet.dec (id_fernet.enc s) = some s) ∧
    prod_env_with_key.encryption_key ≠ "" ∧
    prod_env_with_key.fernet = some id_fernet ∧
    ("tok-123" : String) ≠ "" ∧
    (encrypt_value prod_env_with_key "tok-123" =
        Except.ok ("ENC:" ++ id_fernet.enc "tok-123") ∧
      decrypt_value prod_env_with_key ("ENC:" ++ id_fernet.enc "tok-123") =
        Except.ok "tok-123" ∧
      (∀ (env2 : EncEnv) (y : String), y ≠ "" → py_startswith y "ENC:" = false →
        decrypt_value env2 y = Except.ok y)) :=
  ⟨fun _ => rfl, by decide, rfl, by decide,
    encrypt_decrypt_roundtrip id_fernet (fun _ => rfl) prod_env_with_key
      (by decide) rfl "tok-123" (by decide)⟩

/-! ## Claim C5 -/

/-- C5 counterexample: with strict (production) mode enabled and no
encryption key configured, not every call raises.  A non-empty value
without the `ENC:` tag passes through `decrypt_value` unchanged (the
legacy-plaintext return precedes the key check); and once the one-shot
initialization flag has been set by a first call, `encrypt_value`
silently returns the plaintext of any non-empty input instead of
raising. -/
theorem decrypt_value_no_key_passthrough :
    decrypt_value prod_env_no_key "legacy-plain-token" =
      Except.ok "legacy-plain-token" ∧
    encrypt_value (after_encryption_check prod_env_no_key) "secret-token" =
      Except.ok "secret-token" :=
  ⟨rfl, rfl⟩

/-- C5 (amended): with strict mode enabled and no key configured, the
raise is one-shot on the encrypt side: while the initialization flag is
unset (the first call in the process), `encrypt_value` raises
`EncryptionKeyMissingError` on every non-empty input; once the flag is
set, `encrypt_value` silently returns the plaintext instead.
`decrypt_value` raises `EncryptionKeyMissingError` on every
`ENC:`-tagged input in both states (its in-function production
re-check).  The empty string is returned as the empty string by both,
and a non-empty untagged (legacy plaintext) value is returned
unchanged, before any key is required. -/
theorem strict_mode_fail_fast
    (env : EncEnv) (hprod : env.is_production = true)
    (hkey : env.encryption_key = "") :
    (env.initialization_checked = false →
      ∀ x : String, x ≠ "" →
        encrypt_value env x =
          Except.error (EncError.key_missing
            "FATAL: ENCRYPTION_KEY environment variable is not set")) ∧
    (env.initialization_checked = true →
      ∀ x : String, x ≠ "" → encrypt_value env x = Except.ok x) ∧
    (∀ y : String, py_startswith y "ENC:" = true →
      ∃ msg, decrypt_value env y = Except.error (EncError.key_missing msg)) ∧
    (after_encryption_check env).initialization_checked = true ∧
    encrypt_value env "" = Except.ok "" ∧
    decrypt_value env "" = Except.ok "" ∧
    (∀ y : String, y ≠ "" → py_startswith y "ENC:" = false →
      decrypt_value env y = Except.ok y) := by
  have hgf_false : env.initialization_checked = false →
      get_fernet env =
        Except.error (EncError.key_missing
          "FATAL: ENCRYPTION_KEY environment variable is not set") := by
    intro hflag
    unfold get_fernet
    rw [if_pos hkey, hflag, if_neg Bool.false_ne_true, if_pos hprod]
  have hgf_true : env.initialization_checked = true →
      get_fernet env = Except.ok none := by
    intro hflag
    unfold get_fernet
    rw [if_pos hkey, hflag, if_pos rfl]
  refine ⟨?_, ?_, ?_, rfl, ?_, ?_, ?_⟩
  · intro hflag x hx
    unfold encrypt_value
    rw [if_neg hx, hgf_false hflag]
  · intro hflag x hx
    unfold encrypt_value
    rw [if_neg hx, hgf_true hflag]
  · intro y hpre
    cases hflag : env.initialization_checked with
    | false =>
        refine ⟨"FATAL: ENCRYPTION_KEY environment variable is not set", ?_⟩
        unfold decrypt_value
        rw [if_neg (py_startswith_ne_empty hpre), hpre]
        simp only [Bool.not_true, Bool.false_eq_true, if_false]
        rw [hgf_false hflag]
    | true =>
        refine ⟨"Cannot decrypt: ENCRYPTION_KEY not set in production", ?_⟩
        unfold decrypt_value
        rw [if_neg (py_startswith_ne_empty hpre), hpre]
        simp only [Bool.not_true, Bool.false_eq_true, if_false]
        rw [hgf_true hflag]
        simp [hprod]
  · unfold encrypt_value
    rw [if_pos rfl]
  · unfold decrypt_value
    rw [if_pos rfl]
  · intro y hy hpre
    unfold decrypt_value
    rw [if_neg hy, hpre]
    rfl

/-- Witness for C5 (amended), exercising both states of the one-shot
flag at the concrete production environment without a key. -/
theorem strict_mode_fail_fast_witness :
    prod_env_no_key.is_production = true ∧
    prod_env_no_key.encryption_key = "" ∧
    ((prod_env_no_key.initialization_checked = false →
        ∀ x : String, x ≠ "" →
          encrypt_value prod_env_no_key x =
            Except.error (EncError.key_missing
              "FATAL: ENCRYPTION_KEY environment variable is not set")) ∧
      (prod_env_no_key.initialization_checked = true →
        ∀ x : String, x ≠ "" → encrypt_value prod_env_no_key x = Except.ok x) ∧
      (∀ y : String, py_startswith y "ENC:" = true →
        ∃ msg, decrypt_value prod_env_no_key y =
          Except.error (EncError.key_missing msg)) ∧
      (after_encryption_check prod_env_no_key).initialization_checked = true ∧
      encrypt_value prod_env_no_key "" = Except.ok "" ∧
      decrypt_value prod_env_no_key "" = Except.ok "" ∧
      (∀ y : String, y ≠ "" → py_startswith y "ENC:" = false →
        decrypt_value prod_env_no_key y = Except.ok y)) ∧
    ((after_encryption_check prod_env_no_key).is_production = true ∧
      (after_encryption_check prod_env_no_key).encryption_key = "" ∧
      ((after_encryption_check prod_env_no_key).initialization_checked = true →
        ∀ x : String, x ≠ "" →
          encrypt_value (after_encryption_check prod_env_no_key) x = Except.ok x)) :=
  ⟨rfl, rfl,
   strict_mode_fail_fast prod_env_no_key rfl rfl,
   rfl, rfl,
   (strict_mode_fail_fast (after_encryption_check prod_env_no_key) rfl rfl).2.1⟩

/-! ## Claim C3 -/

/-- C3 (code bug): the Token Refresh Protocol never returns a token at
all.  Every call to `get_access_token_for_urn` raises `TypeError` at its
first statement — the `await` on the synchronous
`token_store.get_token_by_urn` — leaving the store untouched and the
refresh endpoint uncalled, for every refresh oracle, store, URN, buffer
and instant.  In particular, at a credential far outside the refresh
buffer the call does not return the stored access token (as the claim
and the docstring say it does): it raises. -/
theorem get_access_token_always_type_error :
    (∀ (refresh : String → Except AuthError RefreshTokenResponse)
        (db : List AccountRow) (urn : String) (buffer now : Int),
      (get_access_token_for_urn refresh db urn buffer now).db = db ∧
      (get_access_token_for_urn refresh db urn buffer now).refresh_called = false ∧
      ∃ msg, (get_access_token_for_urn refresh db urn buffer now).result =
        Except.error (AuthError.py_type_error msg)) ∧
    (get_access_token_for_urn ok_refresh [row_far_expiry]
        "urn:li:person:F" 60 1000).result =
      Except.error (AuthError.py_type_error
        "object dict can not be used in await expression") := by
  constructor
  · intro refresh db urn buffer now
    unfold get_access_token_for_urn
    cases get_token_by_urn db urn with
    | none => exact ⟨rfl, rfl, _, rfl⟩
    | some row => exact ⟨rfl, rfl, _, rfl⟩
  · rfl

/-! ## Claim C6 -/

/-- C6 (code bug): the distinct terminal credential errors are never
signalled.  With no credential row the call raises `TypeError` (from
awaiting `None`), not `TokenNotFoundError`; with a near-expiry row
holding no refresh token it raises `TypeError` (from awaiting the
dict), not `TokenRefreshError` — in both cases before the taxonomy of
`services/auth_service.py` is reachable, and without touching the
store. -/
theorem terminal_credential_errors_unreachable :
    (get_access_token_for_urn ok_refresh [] "urn:li:person:Q" 60 1000).result =
      Except.error (AuthError.py_type_error
        "object NoneType can not be used in await expression") ∧
    (get_access_token_for_urn ok_refresh [row_near_expiry_no_refresh]
        "urn:li:person:Y" 60 1000).result =
      Except.error (AuthError.py_type_error
        "object dict can not be used in await expression") ∧
    (get_access_token_for_urn ok_refresh [row_near_expiry_no_refresh]
        "urn:li:person:Y" 60 1000).db = [row_near_expiry_no_refresh] :=
  ⟨rfl, rfl, rfl⟩

/-! ## Claim C8 -/

/-- C8 counterexample: two `save_token` calls for the same tenant under
two different LinkedIn URNs leave the tenant holding two credential rows
— the upsert conflict key is `linkedin_user_urn`, not the tenant id, so
the claimed at-most-one-credential-per-tenant state is violated by a
reachable store. -/
theorem save_token_two_rows_same_tenant :
    ((save_token "urn:li:person:B" "tok-2" none none (some "tenant-1")
        (save_token "urn:li:person:A" "tok-1" none none (some "tenant-1") [])).filter
      (fun r => r.user_id = some "tenant-1")).length = 2 := rfl

/-- C8 (amended): the credential store keeps at most one live credential
per LinkedIn URN: `save_token` preserves distinctness of the stored URNs,
overwrites in place (same row count) when a row with the URN exists and
appends exactly one row otherwise, and after the call every row carrying
the URN holds exactly the saved values.  Uniqueness is keyed on
`linkedin_user_urn`; a tenant re-authorizing under a different URN
receives a second row. -/
theorem save_token_upsert_per_urn
    (urn access_token : String) (rt : Option String) (exp : Option Int)
    (uid : Option String) (db : List AccountRow)
    (hnd : (db.map AccountRow.linkedin_user_urn).Nodup) :
    ((save_token urn access_token rt exp uid db).map AccountRow.linkedin_user_urn).Nodup ∧
    (save_token urn access_token rt exp uid db).length =
      (if db.any (fun r => r.linkedin_user_urn = urn) then db.length else db.length + 1) ∧
    (∀ r ∈ save_token urn access_token rt exp uid db,
      r.linkedin_user_urn = urn → r = ⟨urn, access_token, rt, exp, uid⟩) := by
  by_cases hany : db.any (fun r => r.linkedin_user_urn = urn) = true
  · have hmap : (save_token urn access_token rt exp uid db).map AccountRow.linkedin_user_urn =
        db.map AccountRow.linkedin_user_urn := by
      unfold save_token
      rw [if_pos hany, List.map_map]
      refine List.map_congr_left ?_
      intro r _
      by_cases h : r.linkedin_user_urn = urn
      · simp [Function.comp, h]
      · simp [Function.comp, h]
    refine ⟨hmap ▸ hnd, ?_, ?_⟩
    · unfold save_token
      rw [if_pos hany, List.length_map, if_pos hany]
    · intro r hr hurn
      unfold save_token at hr
      rw [if_pos hany] at hr
      obtain ⟨a, _, ha⟩ := List.mem_map.mp hr
      by_cases h : a.linkedin_user_urn = urn
      · rw [if_pos h] at ha
        rw [← ha, h]
      · rw [if_neg h] at ha
        exact absurd (ha ▸ hurn) h
  · have hany' : db.any (fun r => r.linkedin_user_urn = urn) = false :=
      Bool.eq_false_iff.mpr hany
    have hnone : ∀ r ∈ db, r.linkedin_user_urn ≠ urn := by
      intro r hr
      have := List.any_eq_false.mp hany' r hr
      simpa using this
    refine ⟨?_, ?_, ?_⟩
    · unfold save_token
      rw [if_neg hany, List.map_append]
      rw [List.nodup_append]
      refine ⟨hnd, by simp, ?_⟩
      intro x hx
      obtain ⟨a, ha, rfl⟩ := List.mem_map.mp hx
      simp only [List.map_cons, List.map_nil, List.mem_cons, List.not_mem_nil, or_false]
      exact hnone a ha
    · unfold save_token
      rw [if_neg hany, List.length_append, if_neg hany]
      rfl
    · intro r hr hurn
      unfold save_token at hr
      rw [if_neg hany] at hr
      rcases List.mem_append.mp hr with h | h
      · exact absurd hurn (hnone r h)
      · simpa using h

/-- Witness for C8 (amended): overwriting the single row of a one-row
store. -/
theorem save_token_upsert_per_urn_witness :
    ([row_near_expiry].map AccountRow.linkedin_user_urn).Nodup ∧
    (((save_token "urn:li:person:X" "tok-new" none none (some "tenant-9")
          [row_near_expiry]).map AccountRow.linkedin_user_urn).Nodup ∧
      (save_token "urn:li:person:X" "tok-new" none none (some "tenant-9")
          [row_near_expiry]).length =
        (if ([row_near_expiry] : List AccountRow).any
            (fun r => r.linkedin_user_urn = "urn:li:person:X") then
          ([row_near_expiry] : List AccountRow).length
        else ([row_near_expiry] : List AccountRow).length + 1) ∧
      (∀ r ∈ save_token "urn:li:person:X" "tok-new" none none (some "tenant-9")
          [row_near_expiry],
        r.linkedin_user_urn = "urn:li:person:X" →
        r = ⟨"urn:li:person:X", "tok-new", none, none, some "tenant-9"⟩)) :=
  ⟨by decide,
   save_token_upsert_per_urn "urn:li:person:X" "tok-new" none none (some "tenant-9")
     [row_near_expiry] (by decide)⟩

/-! ## Claim C2 -/

theorem mem_get_due_posts {now : Int} {db : List Post} {p : Post}
    (h : p ∈ get_due_posts now db) :
    p ∈ db ∧ p.status = Status.pending ∧ p.scheduled_time ≤ now := by
  unfold get_due_posts at h
  obtain ⟨h1, h2⟩ := List.mem_filter.mp h
  simp only [Bool.and_eq_true, decide_eq_true_eq] at h2
  exact ⟨h1, h2.1, h2.2⟩

theorem row_step_trans {S : List Nat} {a b c : Post}
    (h1 : row_step S a b) (h2 : row_step S b c) : row_step S a c := by
  rcases h1 with rfl | ⟨ha, hid, _⟩
  · exact h2
  · rcases h2 with rfl | ⟨_, hid2, hst2⟩
    · exact Or.inr ⟨ha, hid, ‹_›⟩
    · exact Or.inr ⟨ha, hid2.trans hid, hst2⟩

theorem forall2_row_step_refl (S : List Nat) :
    ∀ db : List Post, List.Forall₂ (row_step S) db db
  | [] => List.Forall₂.nil
  | _ :: rest => List.Forall₂.cons (Or.inl rfl) (forall2_row_step_refl S rest)

theorem forall2_scan_refl : ∀ db : List Post, List.Forall₂ scan_transition db db
  | [] => List.Forall₂.nil
  | _ :: rest => List.Forall₂.cons (Or.inl rfl) (forall2_scan_refl rest)

theorem forall2_row_step_trans {S : List Nat} :
    ∀ {a b c : List Post}, List.Forall₂ (row_step S) a b →
      List.Forall₂ (row_step S) b c → List.Forall₂ (row_step S) a c := by
  intro a b c h1
  induction h1 generalizing c with
  | nil =>
      intro h2
      cases h2
      exact List.Forall₂.nil
  | cons hab htail ih =>
      intro h2
      cases h2 with
      | cons hbc htail2 => exact List.Forall₂.cons (row_step_trans hab hbc) (ih htail2)

theorem forall2_imp_mem {α β : Type} {R R2 : α → β → Prop} :
    ∀ {l1 : List α} {l2 : List β}, List.Forall₂ R l1 l2 →
      (∀ a ∈ l1, ∀ b, R a b → R2 a b) → List.Forall₂ R2 l1 l2 := by
  intro l1 l2 h
  induction h with
  | nil => intro _; exact List.Forall₂.nil
  | cons hab htail ih =>
      intro hmem
      exact List.Forall₂.cons (hmem _ (List.mem_cons_self _ _) _ hab)
        (ih fun a ha b hr => hmem a (List.mem_cons_of_mem _ ha) b hr)

theorem update_post_status_forall2 {S : List Nat} {post_id : Nat} {st : Status}
    {msg : Option String} {now : Int} (hpid : post_id ∈ S)
    (hst : st = Status.published ∨ st = Status.failed) :
    ∀ db : List Post, List.Forall₂ (row_step S) db (update_post_status post_id st msg now db) := by
  intro db
  induction db with
  | nil => exact List.Forall₂.nil
  | cons p rest ih =>
      simp only [update_post_status, List.map_cons]
      refine List.Forall₂.cons ?_ ih
      by_cases h : p.id = post_id
      · rw [if_pos h]
        exact Or.inr ⟨h ▸ hpid, rfl, by rcases hst with rfl | rfl <;> simp⟩
      · rw [if_neg h]
        exact Or.inl rfl

theorem process_post_is_update (env : SchedEnv) (now : Int) (db : List Post) (p : Post) :
    ∃ (st : Status) (msg : Option String),
      (st = Status.published ∨ st = Status.failed) ∧
      process_post env now db p = update_post_status p.id st msg now db := by
  unfold process_post
  cases henv : env.get_tokens p.user_id with
  | error e => exact ⟨Status.failed, some e, Or.inr rfl, rfl⟩
  | ok tokens =>
      cases tokens with
      | none =>
          exact ⟨Status.failed, some "LinkedIn not connected or token expired", Or.inr rfl, rfl⟩
      | some t =>
          by_cases htok : truthy_str t.access_token
          · simp only [htok, Bool.not_true, Bool.false_eq_true, if_false]
            cases hpub : env.publish (t.access_token.getD "") p.post_content p.image_url with
            | error e => exact ⟨Status.failed, some e, Or.inr rfl, rfl⟩
            | ok result =>
                by_cases hs : result.success
                · simp only [hs, if_true]
                  exact ⟨Status.published, none, Or.inl rfl, rfl⟩
                · simp only [hs, Bool.false_eq_true, if_false]
                  exact ⟨Status.failed, some (result.error.getD "Unknown error"), Or.inr rfl, rfl⟩
          · simp only [Bool.not_eq_true] at htok
            simp only [htok, Bool.not_false, if_true]
            exact ⟨Status.failed, some "LinkedIn not connected or token expired", Or.inr rfl, rfl⟩

theorem process_posts_loop_forall2 (env : SchedEnv) (now : Int) (S : List Nat) :
    ∀ (due : List Post) (n : Nat) (db : List Post),
      (∀ p ∈ due, p.id ∈ S) →
      List.Forall₂ (row_step S) db (process_posts_loop env now due n db).2 := by
  intro due
  induction due with
  | nil => intro n db _; exact forall2_row_step_refl S db
  | cons p rest ih =>
      intro n db h
      have h1 : List.Forall₂ (row_step S) db (process_post env now db p) := by
        obtain ⟨st, msg, hst, heq⟩ := process_post_is_update env now db p
        rw [heq]
        exact update_post_status_forall2 (h p (List.mem_cons_self _ _)) hst db
      have h2 := ih (n + 1) (process_post env now db p)
        (fun q hq => h q (List.mem_cons_of_mem _ hq))
      exact forall2_row_step_trans h1 h2

/-- C2: status transitions of one scan cycle.  The scanner only ever
selects `pending` rows (never a terminal one), and — provided the
`scheduled_posts` ids are distinct, as the integer primary key
guarantees — the resulting store relates row-by-row to the old one by
`scan_transition`: every row is either untouched (in particular every
`published` or `failed` row) or was `pending` and moved to `published`
or `failed`.  No other status edge exists and no terminal row is ever
rewritten. -/
theorem scan_status_transitions (env : SchedEnv) (now : Int) (db : List Post)
    (hnd : (db.map Post.id).Nodup) :
    (∀ p ∈ get_due_posts now db, p.status = Status.pending) ∧
    (process_due_posts env now db).2.length = db.length ∧
    List.Forall₂ scan_transition db (process_due_posts env now db).2 := by
  have hpend : ∀ p ∈ get_due_posts now db, p.status = Status.pending :=
    fun p hp => (mem_get_due_posts hp).2.1
  have hf2 : List.Forall₂ scan_transition db (process_due_posts env now db).2 := by
    unfold process_due_posts
    split
    · exact forall2_scan_refl db
    · split
      · exact forall2_scan_refl db
      · split
        · exact forall2_scan_refl db
        · dsimp only
          split
          · exact forall2_scan_refl db
          · refine forall2_imp_mem
              (process_posts_loop_forall2 env now ((get_due_posts now db).map Post.id)
                (get_due_posts now db) 0 db
                (fun p hp => List.mem_map_of_mem Post.id hp)) ?_
            intro a ha b hr
            rcases hr with rfl | ⟨hid, hideq, hst⟩
            · exact Or.inl rfl
            · obtain ⟨q, hq, hqid⟩ := List.mem_map.mp hid
              have hq2 := mem_get_due_posts hq
              have : q = a :=
                List.inj_on_of_nodup_map hnd hq2.1 ha hqid
              exact Or.inr ⟨this ▸ hq2.2.1, hideq, hst⟩
  exact ⟨hpend, hf2.length_eq.symm, hf2⟩

/-- Witness for C2 at a two-row store (one due pending post, one already
published post) under an environment whose vault and publish oracles
succeed. -/
theorem scan_status_transitions_witness :
    (([due_post, published_post].map Post.id).Nodup) ∧
    ((∀ p ∈ get_due_posts 1000 [due_post, published_post], p.status = Status.pending) ∧
      (process_due_posts sched_env_ok 1000 [due_post, published_post]).2.length =
        ([due_post, published_post] : List Post).length ∧
      List.Forall₂ scan_transition [due_post, published_post]
        (process_due_posts sched_env_ok 1000 [due_post, published_post]).2) :=
  ⟨by decide,
   scan_status_transitions sched_env_ok 1000 [due_post, published_post] (by decide)⟩

/-! ## Claim C9 -/

/-- C9: a scan cycle is total and never crashes the loop.  When the
due-posts query raises, the exception is caught and the cycle returns `0`
with the store untouched; when the query returns no due rows, the cycle
is a no-op returning `0` — for every environment, instant and store
state.  (`process_due_posts` is a total function of its environment, so
no input can raise out of it into `scheduler_loop`.) -/
theorem scan_cycle_total (env : SchedEnv) (now : Int) (db : List Post) :
    (∀ msg, env.due_exc = some msg → process_due_posts env now db = (0, db)) ∧
    (get_due_posts now db = [] → process_due_posts env now db = (0, db)) := by
  constructor
  · intro msg hexc
    unfold process_due_posts
    split
    · rfl
    · split
      · rfl
      · split
        · rfl
        · rename_i heq
          rw [hexc] at heq
          exact Option.noConfusion heq
  · intro hdue
    unfold process_due_posts
    split
    · rfl
    · split
      · rfl
      · split
        · rfl
        · dsimp only
          rw [hdue]
          rfl

/-- Witness for C9: a raising due-posts query over a one-row store, and
an empty store under a healthy environment. -/
theorem scan_cycle_total_witness :
    (sched_env_exc.due_exc = some "database connection lost" ∧
      process_due_posts sched_env_exc 1000 [due_post] = (0, [due_post])) ∧
    (get_due_posts 1000 ([] : List Post) = [] ∧
      process_due_posts sched_env_ok 1000 [] = (0, [])) :=
  ⟨⟨rfl, (scan_cycle_total sched_env_exc 1000 [due_post]).1
      "database connection lost" rfl⟩,
   ⟨rfl, (scan_cycle_total sched_env_ok 1000 []).2 rfl⟩⟩

/-! ## Claim C7 -/

theorem process_post_task_no_publish (env : TasksEnv) (now : Int)
    (accounts : List AccountRow) (db : List Post) (p : Post) :
    (process_post_task env now accounts db p).2 = [] := by
  unfold process_post_task
  cases get_token_by_user_id accounts p.user_id with
  | none => rfl
  | some row => rfl

theorem tasks_loop_no_publish (env : TasksEnv) (now : Int) (accounts : List AccountRow) :
    ∀ (due : List Post) (n : Nat) (db : List Post) (tr : List Nat),
      (tasks_loop env now accounts due n db tr).2.2 = tr := by
  intro due
  induction due with
  | nil => intro n db tr; rfl
  | cons p rest ih =>
      intro n db tr
      show (tasks_loop env now accounts rest (n + 1)
        (process_post_task env now accounts db p).1
        (tr ++ (process_post_task env now accounts db p).2)).2.2 = tr
      rw [process_post_task_no_publish, List.append_nil]
      exact ih (n + 1) (process_post_task env now accounts db p).1 tr

/-- C7 (code bug): the dispatcher never reaches a publish attempt, so no
retry of any kind occurs.  In every run of `_process_due_posts_async`
the list of publish calls is empty; every processed post is marked
`failed` immediately with the `TypeError` from awaiting the synchronous
token lookup, caught by the per-post `except` — zero publish attempts,
zero retries, no backoff.  Concretely: a due post of a tenant with a
stored token, whose HTTP outcome would be a transient 503, ends
`failed` with the `TypeError` message and no publish call.  The Celery
retry configuration (`max_retries=3`) belongs to the task wrapping the
whole scan and is never triggered by these swallowed per-post
failures. -/
theorem dispatcher_never_publishes :
    (∀ (env : TasksEnv) (now : Int) (accounts : List AccountRow) (db : List Post),
      (process_due_posts_async env now accounts db).2.2 = []) ∧
    (∀ (env : TasksEnv) (now : Int) (accounts : List AccountRow)
        (db : List Post) (p : Post),
      ∃ msg, process_post_task env now accounts db p =
        (update_post_status p.id Status.failed (some msg) now db, [])) ∧
    c7_env.http due_post.id = Except.ok 503 ∧
    (process_due_posts_async c7_env 1000 c7_accounts [due_post]).2.1 =
      [⟨1, "u1", "hello world", none, 500, Status.failed,
        some "TypeError: object dict can not be used in await expression", 100, none⟩] ∧
    (process_due_posts_async c7_env 1000 c7_accounts [due_post]).2.2 = [] ∧
    task_max_retries = 3 := by
  refine ⟨?_, ?_, rfl, rfl, rfl, rfl⟩
  · intro env now accounts db
    unfold process_due_posts_async
    split
    · rfl
    · dsimp only
      split
      · rfl
      · exact tasks_loop_no_publish env now accounts _ 0 db []
  · intro env now accounts db p
    unfold process_post_task
    cases get_token_by_user_id accounts p.user_id with
    | none =>
        exact ⟨"TypeError: object NoneType can not be used in await expression", rfl⟩
    | some row =>
        exact ⟨"TypeError: object dict can not be used in await expression", rfl⟩
